import Mathlib

/-!
Verification development for the k-means-with-isolation-forest repository.

The repository composes external sklearn primitives (IsolationForest, KMeans,
StandardScaler, silhouette_score, davies_bouldin_score) and the kneed
KneeLocator into an outlier-aware clustering pipeline.  The glue code under
`src/` is embedded shallowly below; the external collaborators are modelled as
abstract functions carrying only their documented contracts (output lengths,
label ranges, determinism given a fixed random_state).  Feature rows are
modelled as lists of rationals.
-/

set_option autoImplicit false

namespace KMeansIF

/-- Boolean-mask selection, the model of numpy boolean indexing `xs[mask]`
as used in `enhanced_kmeans.py` line 54 and `analysis.py` lines 88-89. -/
def maskSelect {α : Type} : List Bool → List α → List α
  | true :: ms, x :: xs => x :: maskSelect ms xs
  | false :: ms, _ :: xs => maskSelect ms xs
  | _, _ => []

/-- Number of `true` entries of a boolean mask. -/
def countTrue (m : List Bool) : Nat := m.count true

/-- Inlier mask from IsolationForest predictions: `outlier_preds == 1`
(`enhanced_kmeans.py` line 53, `analysis.py` lines 84/88). -/
def inlierMask (preds : List Int) : List Bool := preds.map (fun p => p == 1)

/-- Model of `final_labels = np.full(n, -1); final_labels[mask] = labels`
(`enhanced_kmeans.py` lines 69-72): walk the mask, emitting the next inner
label at `true` positions and the sentinel `-1` at `false` positions. -/
def scatterLabels : List Bool → List Nat → List Int
  | [], _ => []
  | true :: ms, l :: ls => (l : Int) :: scatterLabels ms ls
  | true :: ms, [] => -1 :: scatterLabels ms []
  | false :: ms, ls => -1 :: scatterLabels ms ls

/-- Result attributes of a fitted sklearn KMeans: `labels_`,
`cluster_centers_`, `inertia_`. -/
structure KMRes where
  labels : List Nat
  centers : List (List ℚ)
  inertia : ℚ
deriving DecidableEq

/-- Model of sklearn's KMeans collaborator: a pure function of
(n_clusters, random_state, n_init, data), carrying its documented contract
that `labels_` has one entry per input row and entries lie in `[0, n_clusters)`. -/
structure KMeansModel where
  fitted : Nat → Option Int → Nat → List (List ℚ) → KMRes
  labels_length : ∀ k s ni X, ((fitted k s ni X).labels).length = X.length
  labels_lt : ∀ k s ni X l, 1 ≤ k → l ∈ (fitted k s ni X).labels → l < k

/-- Model of sklearn's IsolationForest collaborator: `fit_predict` as a pure
function of (contamination, random_state, data), with its documented contract
of one prediction per input row. -/
structure DetectorModel where
  fitPredict : ℚ → Option Int → List (List ℚ) → List Int
  length_eq : ∀ c s X, (fitPredict c s X).length = X.length

/-- Constructor arguments of `EnhancedKMeans.__init__`
(`enhanced_kmeans.py` lines 14-27): both sub-algorithms are configured from
these stored fields (IsolationForest from contamination and random_state,
KMeans from n_clusters, random_state and n_init). -/
structure EnhancedKMeansParams where
  n_clusters : Nat
  contamination : ℚ
  random_state : Option Int
  n_init : Nat
deriving DecidableEq

/-- Failure raised by `EnhancedKMeans.fit` (`enhanced_kmeans.py` line 58),
recording the inlier count that remained and the cluster count required. -/
inductive FitError where
  | insufficientInliers (available : Nat) (required : Nat)
deriving DecidableEq

/-- Exception message of `enhanced_kmeans.py` line 58. -/
def FitError.message : FitError → String
  | .insufficientInliers a r =>
      "Not enough data points (" ++ toString a ++
      ") remained after outlier removal to form " ++ toString r ++
      " clusters. Try a lower outlier percentage."

/-- Attributes populated by a successful `EnhancedKMeans.fit`
(`enhanced_kmeans.py` lines 40-43 and 63-74). -/
structure FitResult where
  labels_ : List Int
  cluster_centers_ : List (List ℚ)
  inertia_ : ℚ
deriving DecidableEq

/-- The IsolationForest predictions computed at `enhanced_kmeans.py` line 50. -/
def enhancedPreds (D : DetectorModel) (p : EnhancedKMeansParams)
    (X : List (List ℚ)) : List Int :=
  D.fitPredict p.contamination p.random_state X

/-- The inlier mask `outlier_preds == 1` of `enhanced_kmeans.py` line 53. -/
def enhancedMask (D : DetectorModel) (p : EnhancedKMeansParams)
    (X : List (List ℚ)) : List Bool :=
  inlierMask (enhancedPreds D p X)

/-- The cleaned data `X_cleaned = X[inlier_mask]` of
`enhanced_kmeans.py` line 54. -/
def enhancedInliers (D : DetectorModel) (p : EnhancedKMeansParams)
    (X : List (List ℚ)) : List (List ℚ) :=
  maskSelect (enhancedMask D p X) X

/-- Embedding of `EnhancedKMeans.fit` (`enhanced_kmeans.py` lines 45-76):
detect outliers, guard on the remaining inlier count, run KMeans on the
cleaned data only, and scatter its labels back over the full row range with
sentinel `-1` at outlier positions. -/
def EnhancedKMeans.fit (D : DetectorModel) (K : KMeansModel)
    (p : EnhancedKMeansParams) (X : List (List ℚ)) : Except FitError FitResult :=
  let X_cleaned := enhancedInliers D p X
  if X_cleaned.length < p.n_clusters then
    .error (.insufficientInliers X_cleaned.length p.n_clusters)
  else
    let km := K.fitted p.n_clusters p.random_state p.n_init X_cleaned
    .ok { labels_ := scatterLabels (enhancedMask D p X) km.labels
          cluster_centers_ := km.centers
          inertia_ := km.inertia }

/-- Embedding of `EnhancedKMeans.fit_predict` (`enhanced_kmeans.py`
lines 78-83): fit, then return `labels_`. -/
def EnhancedKMeans.fit_predict (D : DetectorModel) (K : KMeansModel)
    (p : EnhancedKMeansParams) (X : List (List ℚ)) : Except FitError (List Int) :=
  (EnhancedKMeans.fit D K p X).map (fun r => r.labels_)

/-! ### Lemmas about the mask/scatter helpers -/

theorem scatterLabels_length (m : List Bool) (l : List Nat) :
    (scatterLabels m l).length = m.length := by
  induction m generalizing l with
  | nil => simp [scatterLabels]
  | cons b ms ih =>
    cases b <;> cases l <;> simp [scatterLabels, ih]

theorem countTrue_nil : countTrue [] = 0 := rfl

theorem countTrue_cons_true (m : List Bool) :
    countTrue (true :: m) = countTrue m + 1 := by
  simp [countTrue, List.count_cons]

theorem countTrue_cons_false (m : List Bool) :
    countTrue (false :: m) = countTrue m := by
  simp [countTrue, List.count_cons]

theorem maskSelect_length {α : Type} (m : List Bool) (xs : List α)
    (h : m.length = xs.length) : (maskSelect m xs).length = countTrue m := by
  induction m generalizing xs with
  | nil => simp [maskSelect, countTrue]
  | cons b ms ih =>
    cases xs with
    | nil => simp at h
    | cons x xs =>
      simp only [List.length_cons, Nat.succ.injEq] at h
      cases b <;>
        simp [maskSelect, countTrue_cons_true, countTrue_cons_false, ih xs h]

theorem maskSelect_scatterLabels (m : List Bool) (l : List Nat)
    (h : l.length = countTrue m) :
    maskSelect m (scatterLabels m l) = l.map (fun n => (n : Int)) := by
  induction m generalizing l with
  | nil =>
    rw [countTrue_nil] at h
    rw [List.length_eq_zero] at h
    subst h
    simp [scatterLabels, maskSelect]
  | cons b ms ih =>
    cases b with
    | false =>
      rw [countTrue_cons_false] at h
      simp [scatterLabels, maskSelect, ih l h]
    | true =>
      rw [countTrue_cons_true] at h
      cases l with
      | nil =>
        exact absurd h (by simp)
      | cons a l =>
        have h' : l.length = countTrue ms := by
          simpa using h
        simp [scatterLabels, maskSelect, ih l h']

theorem scatterLabels_getD_false (m : List Bool) (l : List Nat) (i : Nat)
    (hi : i < m.length) (hm : m.getD i true = false) :
    (scatterLabels m l).getD i 0 = -1 := by
  induction m generalizing l i with
  | nil => simp at hi
  | cons b ms ih =>
    cases i with
    | zero =>
      simp only [List.getD_cons_zero] at hm
      subst hm
      cases l <;> simp [scatterLabels]
    | succ j =>
      simp only [List.getD_cons_succ] at hm
      have hj : j < ms.length := by simpa using hi
      cases b with
      | false => simpa [scatterLabels] using ih l j hj hm
      | true =>
        cases l with
        | nil => simpa [scatterLabels] using ih [] j hj hm
        | cons a l => simpa [scatterLabels] using ih l j hj hm

theorem scatterLabels_getD_true (m : List Bool) (l : List Nat) (i : Nat)
    (hi : i < m.length) (hl : l.length = countTrue m)
    (hm : m.getD i true = true) :
    0 ≤ (scatterLabels m l).getD i 0 := by
  induction m generalizing l i with
  | nil => simp at hi
  | cons b ms ih =>
    cases b with
    | true =>
      rw [countTrue_cons_true] at hl
      cases l with
      | nil => exact absurd hl (by simp)
      | cons a l =>
        have hl' : l.length = countTrue ms := by simpa using hl
        cases i with
        | zero => simp [scatterLabels]
        | succ j =>
          have hj : j < ms.length := by simpa using hi
          simp only [List.getD_cons_succ] at hm
          simpa [scatterLabels] using ih l j hj hl' hm
    | false =>
      rw [countTrue_cons_false] at hl
      cases i with
      | zero =>
        simp only [List.getD_cons_zero] at hm
        exact absurd hm (by simp)
      | succ j =>
        have hj : j < ms.length := by simpa using hi
        simp only [List.getD_cons_succ] at hm
        simpa [scatterLabels] using ih l j hj hl hm

theorem inlierMask_length (preds : List Int) :
    (inlierMask preds).length = preds.length := by
  simp [inlierMask]

theorem countTrue_inlierMask (preds : List Int) :
    countTrue (inlierMask preds) = preds.count 1 := by
  induction preds with
  | nil => rfl
  | cons p ps ih =>
    by_cases hp : p = 1
    · subst hp
      simp only [inlierMask, List.map_cons, beq_self_eq_true, List.count_cons]
      rw [← inlierMask, countTrue_cons_true, ih]
      simp
    · have hb : (p == 1) = false := by simpa [beq_iff_eq] using hp
      simp only [inlierMask, List.map_cons, hb, List.count_cons]
      rw [← inlierMask, countTrue_cons_false, ih]
      simp [hp]

/-! ### Embedding of `analysis.py` -/

/-- Model of `prepare_data_for_clustering` (`analysis.py` lines 9-29) as used
by the analysis entry points: it returns the scaled feature matrix and the
input table with the derived time columns added, one row of each per input
row.  The timestamp feature extraction and the StandardScaler arithmetic are
abstracted behind this interface; the scaler itself is modelled separately
(see `standardScale`). -/
structure PrepModel (α β : Type) where
  prep : List α → List (List ℚ) × List β
  rows_scaled : ∀ df, (prep df).1.length = df.length
  rows_table : ∀ df, (prep df).2.length = df.length

/-- Metrics dictionary built by `run_standard_analysis` and
`run_enhanced_analysis` (`analysis.py` lines 62-67 and 95-100). -/
structure EnhMetrics where
  inertia : ℚ
  silhouette : ℚ
  dbi : ℚ
deriving DecidableEq

/-- Result dictionary of `run_enhanced_analysis` (`analysis.py`
lines 95-102): metrics plus the cleaned table with its `cluster` column. -/
structure EnhResult (β : Type) where
  metrics : EnhMetrics
  data : List (β × Int)

/-- Embedding of `run_enhanced_analysis` (`analysis.py` lines 73-103):
prepare the data, run IsolationForest with the fixed seed 42, return an error
dictionary if fewer inliers than clusters remain, otherwise cluster the
cleaned rows with KMeans (seed 42, n_init 10) and attach the labels as the
`cluster` column of the cleaned table.  The silhouette and Davies-Bouldin
collaborators are abstracted as the `sil` and `dbi` arguments. -/
def run_enhanced_analysis {α β : Type} (P : PrepModel α β)
    (D : DetectorModel) (K : KMeansModel)
    (sil dbi : List (List ℚ) → List Nat → ℚ)
    (df : List α) (n_clusters : Nat) (contamination : ℚ) :
    Except String (EnhResult β) :=
  let X_scaled := (P.prep df).1
  let df_with_features := (P.prep df).2
  let outlier_preds := D.fitPredict contamination (some 42) X_scaled
  if outlier_preds.count 1 < n_clusters then
    .error ("Not enough data points (" ++ toString (outlier_preds.count 1) ++
      ") remained after outlier removal to form " ++ toString n_clusters ++
      " clusters. Try a lower outlier percentage.")
  else
    let df_cleaned := maskSelect (inlierMask outlier_preds) df_with_features
    let X_scaled_cleaned := maskSelect (inlierMask outlier_preds) X_scaled
    let km := K.fitted n_clusters (some 42) 10 X_scaled_cleaned
    .ok { metrics := { inertia := km.inertia
                       silhouette := sil X_scaled_cleaned km.labels
                       dbi := dbi X_scaled_cleaned km.labels }
          data := df_cleaned.zip (km.labels.map (Nat.cast : Nat → Int)) }

/-- Model of the kneed KneeLocator collaborator used by `find_optimal_k`:
given the candidate list and the inertia curve it may throw (modelled as
`Except.error`), find no elbow (`Except.ok none`), or return an elbow. -/
def KneeFinder : Type := List Nat → List ℚ → Except Unit (Option Nat)

/-- Embedding of `find_optimal_k` (`analysis.py` lines 32-50): run KMeans
(seed 42, n_init 10) for each k in the Python half-open range
`range(k_range[0], k_range[1])`, collect the inertias, then ask the knee
locator for the elbow, defaulting to 4 when it throws, finds no elbow, or
(by Python truthiness) reports elbow 0. -/
def find_optimal_k (K : KMeansModel) (knee : KneeFinder)
    (scaled_data : List (List ℚ)) (k_range : Nat × Nat) : List ℚ × Nat :=
  let ks := List.range' k_range.1 (k_range.2 - k_range.1)
  let inertias := ks.map (fun k => (K.fitted k (some 42) 10 scaled_data).inertia)
  let optimal_k :=
    match knee ks inertias with
    | .error _ => 4
    | .ok none => 4
    | .ok (some e) => if e = 0 then 4 else e
  (inertias, optimal_k)

/-! ### Spec-modelled components

The Metrics Evaluator's guard logic, the Dimensionality Reducer, and the
StandardScaler live in external libraries (sklearn, which `src/` only calls,
and a PCA step that `src/` does not contain at all), so they are modelled
from the spec's words (§4.1, §4.2, §4.7). -/

/-- Failure taxonomy of the Metrics Evaluator (spec §4.7 and §7). -/
inductive MetricsError where
  | insufficientData (msg : String)
  | invalidLabel (msg : String)
deriving DecidableEq

/-- Modelled from the spec: the Metrics Evaluator (`evaluate(features,
labels) -> Metrics`, spec §4.7) is realized in the repository only through
direct calls to sklearn's `silhouette_score` and `davies_bouldin_score`
(`analysis.py` lines 63-67 and 95-100), whose bodies are not under `src/`.
Preconditions follow §4.7: matching row counts, no `-1` sentinel (rejected
with `InvalidLabelError`), at least 2 distinct labels and at least 3 points
(rejected with `InsufficientDataError`).  The numeric metric computation on
the success path is abstracted as the `computeMetrics` argument. -/
def evaluate {γ : Type} (computeMetrics : List (List ℚ) → List Int → γ)
    (features : List (List ℚ)) (labels : List Int) : Except MetricsError γ :=
  if features.length ≠ labels.length then
    .error (.insufficientData "features and labels have mismatched row counts")
  else if (-1 : Int) ∈ labels then
    .error (.invalidLabel "sentinel label -1 present in labels")
  else if labels.dedup.length < 2 then
    .error (.insufficientData "labels must contain at least 2 distinct values")
  else if features.length < 3 then
    .error (.insufficientData "at least 3 points are required")
  else
    .ok (computeMetrics features labels)

/-- Failure raised by the Dimensionality Reducer (spec §4.2 and §7). -/
inductive ReduceError where
  | insufficientData (msg : String)
deriving DecidableEq

/-- Modelled from the spec: the Dimensionality Reducer (`reduce(
scaled_features, n_components) -> reduced_features`, spec §4.2) has no
implementation under `src/`.  Per the spec, `n_components = None`/0 skips
reduction and passes the input through unchanged, and the reducer fails with
`InsufficientDataError` when the row count is smaller than `n_components`.
The principal-axis projection itself is abstracted as the `project`
argument. -/
def reduce (project : List (List ℚ) → Nat → List (List ℚ))
    (scaled_features : List (List ℚ)) (n_components : Option Nat) :
    Except ReduceError (List (List ℚ)) :=
  match n_components with
  | none => .ok scaled_features
  | some 0 => .ok scaled_features
  | some m =>
    if scaled_features.length < m then
      .error (.insufficientData
        ("number of rows is smaller than n_components " ++ toString m))
    else
      .ok (project scaled_features m)

/-- Mean of a column, as used by a standard scaler. -/
noncomputable def listMean (xs : List ℝ) : ℝ := xs.sum / (xs.length : ℝ)

/-- Population variance of a column, as used by a standard scaler. -/
noncomputable def listVar (xs : List ℝ) : ℝ :=
  ((xs.map (fun x => (x - listMean xs) ^ 2)).sum) / (xs.length : ℝ)

/-- Population standard deviation of a column. -/
noncomputable def listStd (xs : List ℝ) : ℝ := Real.sqrt (listVar xs)

/-- Scale denominator with sklearn's zero-variance guard: a zero standard
deviation is replaced by 1, so no division by zero occurs. -/
noncomputable def scaleDenom (xs : List ℝ) : ℝ :=
  if listStd xs = 0 then 1 else listStd xs

/-- Modelled from the spec: the Feature Builder's scaling step (spec §4.1) is
sklearn's `StandardScaler.fit_transform` call at `analysis.py` lines 26-27,
whose body is not under `src/`.  Each column is standardized with the mean
and population standard deviation of the current row set only; a
zero-variance column is not divided by zero (its denominator is replaced by
1, which maps it to the constant 0 column). -/
noncomputable def standardScale (xs : List ℝ) : List ℝ :=
  xs.map (fun x => (x - listMean xs) / scaleDenom xs)

/-! ### Concrete collaborator instances used to exercise the embeddings -/

/-- Detector instance that marks every row as an inlier. -/
def trivialDetector : DetectorModel where
  fitPredict := fun _ _ X => X.map (fun _ => 1)
  length_eq := by
    intro c s X
    simp

/-- Detector instance that marks the first row as an outlier and the rest as
inliers. -/
def headOutDetector : DetectorModel where
  fitPredict := fun _ _ X =>
    match X with
    | [] => []
    | _ :: xs => -1 :: xs.map (fun _ => 1)
  length_eq := by
    intro c s X
    cases X <;> simp

/-- KMeans instance that assigns every row to cluster 0 with zero inertia. -/
def trivialKMeans : KMeansModel where
  fitted := fun _ _ _ X => { labels := X.map (fun _ => 0), centers := [], inertia := 0 }
  labels_length := by
    intro k s ni X
    simp
  labels_lt := by
    intro k s ni X l hk hl
    simp only [List.mem_map] at hl
    obtain ⟨_, _, rfl⟩ := hl
    omega

/-- Knee locator instance that reports no elbow. -/
def noKnee : KneeFinder := fun _ _ => .ok none

/-- Knee locator instance that throws. -/
def failKnee : KneeFinder := fun _ _ => .error ()

/-! ### Claims -/

/-- C1: for every input matrix on which `EnhancedKMeans.fit_predict`
succeeds, the returned label array has one entry per input row, carries the
sentinel `-1` exactly at the positions the outlier detector flagged as
outliers (and a nonnegative cluster id elsewhere), and selecting the inlier
positions in original row order yields exactly the inner KMeans labels. -/
theorem fit_predict_label_layout (D : DetectorModel) (K : KMeansModel)
    (p : EnhancedKMeansParams) (X : List (List ℚ)) (labs : List Int)
    (h : EnhancedKMeans.fit_predict D K p X = .ok labs) :
    labs.length = X.length ∧
    (∀ i, i < X.length → (enhancedMask D p X).getD i true = false →
      labs.getD i 0 = -1) ∧
    (∀ i, i < X.length → (enhancedMask D p X).getD i true = true →
      0 ≤ labs.getD i 0) ∧
    maskSelect (enhancedMask D p X) labs =
      ((K.fitted p.n_clusters p.random_state p.n_init
          (enhancedInliers D p X)).labels).map (fun l => (l : Int)) := by
  have hmlen : (enhancedMask D p X).length = X.length := by
    rw [enhancedMask, inlierMask_length, enhancedPreds, D.length_eq]
  have hXc : (enhancedInliers D p X).length = countTrue (enhancedMask D p X) :=
    maskSelect_length _ _ hmlen
  have hcount :
      ((K.fitted p.n_clusters p.random_state p.n_init
          (enhancedInliers D p X)).labels).length = countTrue (enhancedMask D p X) := by
    rw [K.labels_length, hXc]
  rw [EnhancedKMeans.fit_predict, EnhancedKMeans.fit] at h
  by_cases hc : (enhancedInliers D p X).length < p.n_clusters
  · simp [hc, Except.map] at h
  · simp only [hc, if_false, Except.map] at h
    have hl : labs =
        scatterLabels (enhancedMask D p X)
          (K.fitted p.n_clusters p.random_state p.n_init
            (enhancedInliers D p X)).labels := by
      cases h
      rfl
    subst hl
    refine ⟨?_, ?_, ?_, ?_⟩
    · rw [scatterLabels_length, hmlen]
    · intro i hi hm
      exact scatterLabels_getD_false _ _ i (by omega) hm
    · intro i hi hm
      exact scatterLabels_getD_true _ _ i (by omega) hcount hm
    · exact maskSelect_scatterLabels _ _ hcount

/-- C1 witness: a three-row input whose first row is flagged as an outlier
yields the label array `[-1, 0, 0]`. -/
theorem fit_predict_label_layout_apply :
    ([-1, 0, 0] : List Int).length = ([[0], [1], [2]] : List (List ℚ)).length ∧
    ([-1, 0, 0] : List Int).getD 0 0 = -1 := by
  have h := fit_predict_label_layout headOutDetector trivialKMeans
    ⟨1, 1/10, none, 10⟩ [[0], [1], [2]] [-1, 0, 0] (by rfl)
  exact ⟨h.1, h.2.1 0 (by decide) (by decide)⟩

/-- C2: for every successful `EnhancedKMeans.fit`, the exposed `inertia_`
and `cluster_centers_` are exactly the inner KMeans outputs computed on the
inlier subset only. -/
theorem fit_cost_centroids_from_inliers (D : DetectorModel) (K : KMeansModel)
    (p : EnhancedKMeansParams) (X : List (List ℚ)) (r : FitResult)
    (h : EnhancedKMeans.fit D K p X = .ok r) :
    r.cluster_centers_ =
      (K.fitted p.n_clusters p.random_state p.n_init (enhancedInliers D p X)).centers ∧
    r.inertia_ =
      (K.fitted p.n_clusters p.random_state p.n_init (enhancedInliers D p X)).inertia := by
  rw [EnhancedKMeans.fit] at h
  by_cases hc : (enhancedInliers D p X).length < p.n_clusters
  · simp [hc] at h
  · simp only [hc, if_false] at h
    cases h
    exact ⟨rfl, rfl⟩

/-- C2 witness: on a three-row input with one outlier, the exposed centroids
and inertia are those of the inner KMeans run on the two inliers. -/
theorem fit_cost_centroids_from_inliers_apply :
    (FitResult.mk [-1, 0, 0] [] 0).cluster_centers_ =
      (trivialKMeans.fitted 1 none 10
        (enhancedInliers headOutDetector ⟨1, 1/10, none, 10⟩ [[0], [1], [2]])).centers ∧
    (FitResult.mk [-1, 0, 0] [] 0).inertia_ =
      (trivialKMeans.fitted 1 none 10
        (enhancedInliers headOutDetector ⟨1, 1/10, none, 10⟩ [[0], [1], [2]])).inertia :=
  fit_cost_centroids_from_inliers headOutDetector trivialKMeans
    ⟨1, 1/10, none, 10⟩ [[0], [1], [2]] (FitResult.mk [-1, 0, 0] [] 0) (by rfl)

/-- C3: whenever the outlier detector leaves fewer inliers than
`n_clusters`, `EnhancedKMeans.fit` fails with `insufficientInliers`
reporting both the remaining inlier count and the required cluster count
(both numbers appear in the raised message), and no fit result is
produced. -/
theorem fit_insufficient_inliers (D : DetectorModel) (K : KMeansModel)
    (p : EnhancedKMeansParams) (X : List (List ℚ))
    (h : (enhancedInliers D p X).length < p.n_clusters) :
    EnhancedKMeans.fit D K p X =
      .error (.insufficientInliers (enhancedInliers D p X).length p.n_clusters) ∧
    (∀ r : FitResult, EnhancedKMeans.fit D K p X ≠ .ok r) ∧
    (∃ s1 s2 s3 : String,
      (FitError.insufficientInliers (enhancedInliers D p X).length
          p.n_clusters).message =
        s1 ++ toString (enhancedInliers D p X).length ++ s2 ++
          toString p.n_clusters ++ s3) := by
  have herr : EnhancedKMeans.fit D K p X =
      .error (.insufficientInliers (enhancedInliers D p X).length p.n_clusters) := by
    rw [EnhancedKMeans.fit]
    simp [h]
  refine ⟨herr, ?_, ?_⟩
  · intro r hr
    rw [herr] at hr
    exact Except.noConfusion hr
  · exact ⟨"Not enough data points (",
      ") remained after outlier removal to form ",
      " clusters. Try a lower outlier percentage.", rfl⟩

/-- C3 witness: two inliers with three requested clusters produce the
`insufficientInliers 2 3` failure. -/
theorem fit_insufficient_inliers_apply :
    EnhancedKMeans.fit trivialDetector trivialKMeans
      ⟨3, 1/2, none, 10⟩ [[0], [1]] = .error (.insufficientInliers 2 3) :=
  (fit_insufficient_inliers trivialDetector trivialKMeans
    ⟨3, 1/2, none, 10⟩ [[0], [1]] (by decide)).1

/-- Preparation instance with a single scaled column and pass-through
table rows. -/
def trivialPrep : PrepModel Unit Unit where
  prep := fun df => (df.map (fun _ => [0]), df)
  rows_scaled := by
    intro df
    simp
  rows_table := by
    intro df
    simp

/-- Entry `i` of `(List.range' a n).map f` is `f (a + i)`. -/
theorem getD_map_range' (f : Nat → ℚ) (a n i : Nat) (hi : i < n) :
    ((List.range' a n).map f).getD i 0 = f (a + i) := by
  induction n generalizing a i with
  | zero => omega
  | succ m ih =>
    cases i with
    | zero => simp [List.range']
    | succ j =>
      have hj : j < m := by omega
      have := ih (a + 1) j hj
      simpa [List.range', Nat.add_assoc, Nat.add_comm 1 j] using this

/-- C4: for every successful `run_enhanced_analysis` call, the returned
`data` table consists of exactly the inlier rows (its row count is the
number of rows the detector marked as inliers, and its rows are the
mask-selected rows of the feature table), and every `cluster` value lies in
`[0, n_clusters)`; the sentinel `-1` never appears. -/
theorem run_enhanced_analysis_inlier_table {α β : Type} (P : PrepModel α β)
    (D : DetectorModel) (K : KMeansModel)
    (sil dbi : List (List ℚ) → List Nat → ℚ)
    (df : List α) (n_clusters : Nat) (contamination : ℚ) (r : EnhResult β)
    (hk : 1 ≤ n_clusters)
    (h : run_enhanced_analysis P D K sil dbi df n_clusters contamination = .ok r) :
    r.data.length =
      countTrue (inlierMask (D.fitPredict contamination (some 42) (P.prep df).1)) ∧
    r.data.map Prod.fst =
      maskSelect (inlierMask (D.fitPredict contamination (some 42) (P.prep df).1))
        (P.prep df).2 ∧
    ∀ pr ∈ r.data, 0 ≤ pr.2 ∧ pr.2 < (n_clusters : Int) ∧ pr.2 ≠ -1 := by
  have hm : (inlierMask (D.fitPredict contamination (some 42) (P.prep df).1)).length =
      (P.prep df).1.length := by
    rw [inlierMask_length, D.length_eq]
  have hdf : (inlierMask (D.fitPredict contamination (some 42) (P.prep df).1)).length =
      (P.prep df).2.length := by
    rw [hm, P.rows_scaled, P.rows_table]
  have hclean : (maskSelect
      (inlierMask (D.fitPredict contamination (some 42) (P.prep df).1))
      (P.prep df).2).length =
      countTrue (inlierMask (D.fitPredict contamination (some 42) (P.prep df).1)) :=
    maskSelect_length _ _ hdf
  have hXc : (maskSelect
      (inlierMask (D.fitPredict contamination (some 42) (P.prep df).1))
      (P.prep df).1).length =
      countTrue (inlierMask (D.fitPredict contamination (some 42) (P.prep df).1)) :=
    maskSelect_length _ _ hm
  rw [run_enhanced_analysis] at h
  by_cases hc : (D.fitPredict contamination (some 42) (P.prep df).1).count 1 < n_clusters
  · simp [hc] at h
  · simp only [hc, if_false] at h
    injection h with h'
    have hlab : ((K.fitted n_clusters (some 42) 10
        (maskSelect (inlierMask (D.fitPredict contamination (some 42) (P.prep df).1))
          (P.prep df).1)).labels).length =
        countTrue (inlierMask (D.fitPredict contamination (some 42) (P.prep df).1)) := by
      rw [K.labels_length, hXc]
    subst h'
    refine ⟨?_, ?_, ?_⟩
    · simp only [List.length_zip, List.length_map, hclean, hlab, Nat.min_self]
    · refine List.map_fst_zip _ _ ?_
      rw [hclean, List.length_map, hlab]
    · intro pr hpr
      have h2 : pr.2 ∈ ((K.fitted n_clusters (some 42) 10
          (maskSelect (inlierMask (D.fitPredict contamination (some 42) (P.prep df).1))
            (P.prep df).1)).labels).map (Nat.cast : Nat → Int) := by
        have := List.of_mem_zip (a := pr.1) (b := pr.2) (by simpa using hpr)
        exact this.2
      obtain ⟨n, hn, heq⟩ := List.mem_map.1 h2
      have hlt : n < n_clusters := K.labels_lt _ _ _ _ _ hk hn
      refine ⟨?_, ?_, ?_⟩ <;> omega

/-- C4 witness: an all-inlier two-row input with one cluster keeps both rows
with cluster label 0 (never `-1`). -/
theorem run_enhanced_analysis_inlier_table_apply :
    (EnhResult.mk (EnhMetrics.mk 0 0 0) [((), 0), ((), 0)]).data.length =
      countTrue (inlierMask (trivialDetector.fitPredict (1/10) (some 42)
        ((trivialPrep.prep [(), ()]).1))) ∧
    ∀ pr ∈ (EnhResult.mk (EnhMetrics.mk 0 0 0) [((), 0), ((), 0)]).data,
      0 ≤ pr.2 ∧ pr.2 < (1 : Int) ∧ pr.2 ≠ -1 := by
  have h := run_enhanced_analysis_inlier_table trivialPrep trivialDetector
    trivialKMeans (fun _ _ => 0) (fun _ _ => 0) [(), ()] 1 (1/10)
    (EnhResult.mk (EnhMetrics.mk 0 0 0) [((), 0), ((), 0)]) (by decide) (by rfl)
  exact ⟨h.1, h.2.2⟩

/-- C5 counterexample: with `k_range = (2, 4)` the cost sequence has
`4 - 2 = 2` entries (Python's `range` excludes the upper bound), not
`4 - 2 + 1 = 3` as the claim's inclusive reading requires. -/
theorem find_optimal_k_count_counterexample :
    ¬ ((find_optimal_k trivialKMeans noKnee [[0]] (2, 4)).1.length = 4 - 2 + 1) := by
  decide

/-- C5 (amended): `find_optimal_k` runs KMeans once for each candidate k in
the half-open range `[k_range.1, k_range.2)`, so the returned cost sequence
has `k_range.2 - k_range.1` entries and its i-th entry is the cost recorded
for `k = k_range.1 + i` (increasing order of k). -/
theorem find_optimal_k_cost_sequence (K : KMeansModel) (knee : KneeFinder)
    (X : List (List ℚ)) (a b : Nat) :
    (find_optimal_k K knee X (a, b)).1.length = b - a ∧
    ∀ i, i < b - a →
      (find_optimal_k K knee X (a, b)).1.getD i 0 =
        (K.fitted (a + i) (some 42) 10 X).inertia := by
  constructor
  · simp [find_optimal_k]
  · intro i hi
    rw [find_optimal_k]
    exact getD_map_range' (fun k => (K.fitted k (some 42) 10 X).inertia) a (b - a) i hi

/-- C5 witness: with `k_range = (2, 4)` the first recorded cost is that of
the `k = 2` run. -/
theorem find_optimal_k_cost_sequence_apply :
    (find_optimal_k trivialKMeans noKnee [[(0 : ℚ)]] (2, 4)).1.getD 0 0 = 0 := by
  have h := (find_optimal_k_cost_sequence trivialKMeans noKnee
    [[(0 : ℚ)]] 2 4).2 0 (by decide)
  simpa [trivialKMeans] using h

/-- C7: whenever the knee locator throws or finds no elbow on the cost
curve, `find_optimal_k` returns the fixed default `k = 4`; the embedding is
a total function, so no exception reaches the caller. -/
theorem find_optimal_k_fallback (K : KMeansModel) (knee : KneeFinder)
    (X : List (List ℚ)) (a b : Nat)
    (h : knee (List.range' a (b - a))
          ((List.range' a (b - a)).map (fun k => (K.fitted k (some 42) 10 X).inertia)) =
        .error () ∨
      knee (List.range' a (b - a))
          ((List.range' a (b - a)).map (fun k => (K.fitted k (some 42) 10 X).inertia)) =
        .ok none) :
    (find_optimal_k K knee X (a, b)).2 = 4 := by
  rw [find_optimal_k]
  rcases h with h | h <;> simp [h]

/-- C7 witness: a throwing knee locator still yields the default `k = 4`. -/
theorem find_optimal_k_fallback_apply :
    (find_optimal_k trivialKMeans failKnee [[0]] (2, 4)).2 = 4 :=
  find_optimal_k_fallback trivialKMeans failKnee [[0]] 2 4 (Or.inl rfl)

/-- C6: every features/labels pair whose label set has fewer than 2 distinct
values or contains the sentinel `-1` is rejected by the Metrics Evaluator
(with `InsufficientDataError` respectively `InvalidLabelError`) instead of
producing metric values. -/
theorem evaluate_rejects (γ : Type) (computeMetrics : List (List ℚ) → List Int → γ)
    (features : List (List ℚ)) (labels : List Int)
    (hlen : features.length = labels.length) :
    (labels.dedup.length < 2 ∨ (-1 : Int) ∈ labels →
      ∃ e, evaluate computeMetrics features labels = .error e) ∧
    ((-1 : Int) ∈ labels →
      evaluate computeMetrics features labels =
        .error (.invalidLabel "sentinel label -1 present in labels")) ∧
    (labels.dedup.length < 2 → (-1 : Int) ∉ labels →
      ∃ m, evaluate computeMetrics features labels =
        .error (.insufficientData m)) := by
  have hne : ¬ features.length ≠ labels.length := by simp [hlen]
  have h1 : (-1 : Int) ∈ labels →
      evaluate computeMetrics features labels =
        .error (.invalidLabel "sentinel label -1 present in labels") := by
    intro hmem
    rw [evaluate, if_neg hne, if_pos hmem]
  have h2 : labels.dedup.length < 2 → (-1 : Int) ∉ labels →
      ∃ m, evaluate computeMetrics features labels =
        .error (.insufficientData m) := by
    intro hd hnm
    rw [evaluate, if_neg hne, if_neg hnm, if_pos hd]
    exact ⟨_, rfl⟩
  refine ⟨?_, h1, h2⟩
  intro hor
  by_cases hmem : (-1 : Int) ∈ labels
  · exact ⟨_, h1 hmem⟩
  · rcases hor with hd | hmem2
    · obtain ⟨m, hm⟩ := h2 hd hmem
      exact ⟨_, hm⟩
    · exact absurd hmem2 hmem

/-- C6 witness: labels `[0, -1]` are rejected with the invalid-label
error. -/
theorem evaluate_rejects_apply :
    evaluate (fun _ _ => (0 : ℚ)) [[0], [1]] [0, -1] =
      .error (.invalidLabel "sentinel label -1 present in labels") :=
  (evaluate_rejects ℚ (fun _ _ => 0) [[0], [1]] [0, -1] rfl).2.1 (by decide)

/-- C9: determinism as a two-run hyperproperty: the outlier detector, the
cluster engine, the enhanced cluster engine and the k selector are pure
functions of their inputs and seeds, so two calls with identical data and
identical seeds produce identical predictions, cluster results, fit results
and cost/optimal-k pairs. -/
theorem components_deterministic (D : DetectorModel) (K : KMeansModel)
    (knee : KneeFinder) (c₁ c₂ : ℚ) (s₁ s₂ : Option Int) (k₁ k₂ n₁ n₂ : Nat)
    (p₁ p₂ : EnhancedKMeansParams) (X₁ X₂ : List (List ℚ)) (r₁ r₂ : Nat × Nat)
    (hc : c₁ = c₂) (hs : s₁ = s₂) (hk : k₁ = k₂) (hn : n₁ = n₂)
    (hp : p₁ = p₂) (hX : X₁ = X₂) (hr : r₁ = r₂) :
    D.fitPredict c₁ s₁ X₁ = D.fitPredict c₂ s₂ X₂ ∧
    K.fitted k₁ s₁ n₁ X₁ = K.fitted k₂ s₂ n₂ X₂ ∧
    EnhancedKMeans.fit D K p₁ X₁ = EnhancedKMeans.fit D K p₂ X₂ ∧
    find_optimal_k K knee X₁ r₁ = find_optimal_k K knee X₂ r₂ := by
  subst hc
  subst hs
  subst hk
  subst hn
  subst hp
  subst hX
  subst hr
  exact ⟨rfl, rfl, rfl, rfl⟩

/-- C9 witness: two identical concrete runs of each component coincide. -/
theorem components_deterministic_apply :
    trivialDetector.fitPredict (1/10) (some 42) [[0]] =
      trivialDetector.fitPredict (1/10) (some 42) [[0]] ∧
    trivialKMeans.fitted 1 (some 42) 10 [[0]] =
      trivialKMeans.fitted 1 (some 42) 10 [[0]] ∧
    EnhancedKMeans.fit trivialDetector trivialKMeans ⟨1, 1/10, some 42, 10⟩ [[0]] =
      EnhancedKMeans.fit trivialDetector trivialKMeans ⟨1, 1/10, some 42, 10⟩ [[0]] ∧
    find_optimal_k trivialKMeans noKnee [[0]] (2, 4) =
      find_optimal_k trivialKMeans noKnee [[0]] (2, 4) :=
  components_deterministic trivialDetector trivialKMeans noKnee
    (1/10) (1/10) (some 42) (some 42) 1 1 10 10
    ⟨1, 1/10, some 42, 10⟩ ⟨1, 1/10, some 42, 10⟩ [[0]] [[0]] (2, 4) (2, 4)
    rfl rfl rfl rfl rfl rfl rfl

/-- C10: the Dimensionality Reducer fails with `InsufficientDataError`
whenever the row count is smaller than a positive `n_components`, and passes
the input through unchanged when `n_components` is `none` or `0`. -/
theorem reduce_guard_and_passthrough
    (project : List (List ℚ) → Nat → List (List ℚ))
    (scaled_features : List (List ℚ)) (m : Nat) :
    reduce project scaled_features none = .ok scaled_features ∧
    reduce project scaled_features (some 0) = .ok scaled_features ∧
    (0 < m → scaled_features.length < m →
      reduce project scaled_features (some m) =
        .error (.insufficientData
          ("number of rows is smaller than n_components " ++ toString m))) := by
  refine ⟨rfl, rfl, ?_⟩
  intro hm hlt
  cases m with
  | zero => exact absurd hm (by omega)
  | succ k =>
    simp only [reduce]
    rw [if_pos hlt]

/-- C10 witness: one row with `n_components = 2` is rejected, and `none`
passes through. -/
theorem reduce_guard_and_passthrough_apply :
    reduce (fun X _ => X) [[(0 : ℚ)]] (some 2) =
      .error (.insufficientData
        ("number of rows is smaller than n_components " ++ toString 2)) ∧
    reduce (fun X _ => X) [[(0 : ℚ)]] none = .ok [[(0 : ℚ)]] :=
  ⟨(reduce_guard_and_passthrough (fun X _ => X) [[(0 : ℚ)]] 2).2.2
      (by decide) (by decide),
    (reduce_guard_and_passthrough (fun X _ => X) [[(0 : ℚ)]] 2).1⟩

/-! ### Lemmas for the scaler model -/

theorem sum_map_div (xs : List ℝ) (f : ℝ → ℝ) (c : ℝ) :
    (xs.map (fun x => f x / c)).sum = (xs.map f).sum / c := by
  induction xs with
  | nil => simp
  | cons a l ih => simp [ih, add_div]

theorem sum_map_sub_const (xs : List ℝ) (c : ℝ) :
    (xs.map (fun x => x - c)).sum = xs.sum - xs.length * c := by
  induction xs with
  | nil => simp
  | cons a l ih =>
    simp only [List.map_cons, List.sum_cons, List.length_cons, ih]
    push_cast
    ring

theorem length_cast_ne_zero (xs : List ℝ) (h : xs ≠ []) :
    ((xs.length : ℝ)) ≠ 0 := by
  have : 0 < xs.length := List.length_pos.2 h
  positivity

theorem sum_eq_length_mul_mean (xs : List ℝ) (h : xs ≠ []) :
    xs.sum = xs.length * listMean xs := by
  rw [listMean, mul_comm, div_mul_cancel₀ _ (length_cast_ne_zero xs h)]

theorem listVar_nonneg (xs : List ℝ) : 0 ≤ listVar xs := by
  rw [listVar]
  apply div_nonneg
  · apply List.sum_nonneg
    intro y hy
    obtain ⟨z, _, rfl⟩ := List.mem_map.1 hy
    positivity
  · positivity

theorem sum_sq_zero_all_eq (xs : List ℝ) (c : ℝ)
    (h : (xs.map (fun x => (x - c) ^ 2)).sum = 0) : ∀ x ∈ xs, x = c := by
  intro x hx
  have hnn : ∀ y ∈ xs.map (fun x => (x - c) ^ 2), 0 ≤ y := by
    intro y hy
    obtain ⟨z, _, rfl⟩ := List.mem_map.1 hy
    positivity
  have hmem : (x - c) ^ 2 ∈ xs.map (fun x => (x - c) ^ 2) :=
    List.mem_map_of_mem _ hx
  have hle : (x - c) ^ 2 ≤ 0 := h ▸ List.single_le_sum hnn _ hmem
  have hz : (x - c) ^ 2 = 0 := le_antisymm hle (by positivity)
  have : x - c = 0 := by
    exact pow_eq_zero_iff (by norm_num) |>.1 hz
  linarith

/-- C8: for every nonempty column, the scaler's output has mean exactly 0;
when the column's variance is nonzero its output has standard deviation
exactly 1; and a zero-variance column is mapped to the constant 0 column
(the zero standard deviation is never used as a divisor). -/
theorem standardScale_spec (xs : List ℝ) (h : xs ≠ []) :
    listMean (standardScale xs) = 0 ∧
    (listVar xs ≠ 0 → listStd (standardScale xs) = 1) ∧
    (listVar xs = 0 → standardScale xs = List.replicate xs.length 0) := by
  have hn : ((xs.length : ℝ)) ≠ 0 := length_cast_ne_zero xs h
  have hlen : (standardScale xs).length = xs.length := by
    simp [standardScale]
  have hsum0 : (xs.map (fun x => x - listMean xs)).sum = 0 := by
    rw [sum_map_sub_const, sum_eq_length_mul_mean xs h]
    ring
  have hsum : (standardScale xs).sum = 0 := by
    rw [standardScale,
      sum_map_div xs (fun x => x - listMean xs) (scaleDenom xs), hsum0, zero_div]
  have hmean : listMean (standardScale xs) = 0 := by
    rw [listMean, hsum, zero_div]
  refine ⟨hmean, ?_, ?_⟩
  · intro hv
    have hv0 : 0 ≤ listVar xs := listVar_nonneg xs
    have hstd : listStd xs ≠ 0 := by
      rw [listStd]
      intro h0
      exact hv ((Real.sqrt_eq_zero hv0).1 h0)
    have hcden : scaleDenom xs = listStd xs := if_neg hstd
    have hsq : listStd xs ^ 2 = listVar xs := by
      rw [listStd]
      exact Real.sq_sqrt hv0
    have hcomp : ((fun y => (y - 0) ^ 2) ∘
        (fun x => (x - listMean xs) / scaleDenom xs)) =
        fun x => (x - listMean xs) ^ 2 / scaleDenom xs ^ 2 := by
      funext x
      simp [Function.comp, div_pow]
    have hvar1 : listVar (standardScale xs) = listVar xs / scaleDenom xs ^ 2 := by
      rw [listVar, hmean, hlen, standardScale, List.map_map, hcomp,
        sum_map_div xs (fun x => (x - listMean xs) ^ 2) (scaleDenom xs ^ 2),
        listVar, div_div, div_div, mul_comm]
    have hvar2 : listVar (standardScale xs) = 1 := by
      rw [hvar1, hcden, hsq, div_self hv]
    rw [listStd, hvar2, Real.sqrt_one]
  · intro hv
    have hS0 : (xs.map (fun x => (x - listMean xs) ^ 2)).sum = 0 := by
      rw [listVar] at hv
      rcases div_eq_zero_iff.1 hv with hS | hbad
      · exact hS
      · exact absurd hbad hn
    have hall : ∀ x ∈ xs, x = listMean xs := sum_sq_zero_all_eq xs _ hS0
    refine List.eq_replicate_iff.2 ⟨hlen, ?_⟩
    intro b hb
    obtain ⟨x, hx, rfl⟩ := List.mem_map.1 hb
    rw [hall x hx]
    simp

/-- C8 witness: the column `[0, 2]` (variance 1) is scaled to mean 0 and
standard deviation 1. -/
theorem standardScale_spec_apply :
    listMean (standardScale [(0 : ℝ), 2]) = 0 ∧
    listStd (standardScale [(0 : ℝ), 2]) = 1 := by
  have hvar : listVar [(0 : ℝ), 2] = 1 := by
    norm_num [listVar, listMean]
  have h := standardScale_spec [(0 : ℝ), 2] (by simp)
  exact ⟨h.1, h.2.1 (by rw [hvar]; norm_num)⟩

end KMeansIF
